import Mathlib

/-!
Verification development for the payroll-record line scanner of
`becycle_invoice.py` (`parse_payroll_pdf`).  The scanner is embedded
shallowly: the PDF text extraction (an external library call) is out of
scope, so the embedding starts from the ordered list of text lines and
mirrors the `while i < len(lines)` loop of the source, with the mutable
locals `current_date`, `current_record`, `records` carried in an explicit
state and the variable cursor advance replaced by consuming a suffix of
the line list under a fuel bound equal to the number of lines (each loop
iteration consumes at least one line, so that fuel always suffices; this
is proved below).  Regular expressions of the source are replaced by
equivalent explicit character-list matchers: all the patterns involved
use only greedy pieces whose backtracking is vacuous, which makes the
direct matchers extensionally equal to the regex semantics on the ASCII
digit range modelled here.
-/

/-- Whitespace characters recognised by Python `str.strip` / `str.split`
(ASCII subset; the scanner's lines come from `splitlines`, so they carry
no newline, and the source documents are ASCII-spaced). -/
def isSpaceChar (c : Char) : Bool :=
  c = ' ' || c = '\t' || c = '\n' || c = '\r' || c = '\x0b' || c = '\x0c'

/-- Python `str.strip()` on a character list. -/
def pyStripChars (cs : List Char) : List Char :=
  ((cs.dropWhile isSpaceChar).reverse.dropWhile isSpaceChar).reverse

/-- Python `str.strip()`. -/
def pyStrip (s : String) : String := String.mk (pyStripChars s.data)

/-- First whitespace-delimited token of `line.split(maxsplit=1)`. -/
def firstTokenChars (cs : List Char) : List Char :=
  (cs.dropWhile isSpaceChar).takeWhile (fun c => !isSpaceChar c)

/-- Remainder part of `line.split(maxsplit=1)` (empty when the split has a
single part). -/
def afterFirstTokenChars (cs : List Char) : List Char :=
  ((cs.dropWhile isSpaceChar).dropWhile (fun c => !isSpaceChar c)).dropWhile isSpaceChar

/-- Python `line.split(" ", 1)`: split at the first literal space, keeping
everything after it (including further spaces).  Always returns one or two
parts, as in Python. -/
def pySplitSpace1 (cs : List Char) : List (List Char) :=
  let before := cs.takeWhile (fun c => !(c = ' '))
  match cs.drop before.length with
  | [] => [before]
  | _ :: after => [before, after]

/-- Matcher for `re.match(r"\d{1,2}\.\d{2}\.\d{4}$", s)`: the two
alternatives correspond to the one- and two-digit day forms; the greedy
`\d{1,2}` admits no other backtracking outcome. -/
def isDateChars (cs : List Char) : Bool :=
  match cs with
  | [a, b, s1, m1, m2, s2, y1, y2, y3, y4] =>
    a.isDigit && b.isDigit && s1 = '.' && m1.isDigit && m2.isDigit &&
      s2 = '.' && y1.isDigit && y2.isDigit && y3.isDigit && y4.isDigit
  | [a, s1, m1, m2, s2, y1, y2, y3, y4] =>
    a.isDigit && s1 = '.' && m1.isDigit && m2.isDigit &&
      s2 = '.' && y1.isDigit && y2.isDigit && y3.isDigit && y4.isDigit
  | _ => false

/-- Matcher for `re.match(r"^\d{1,2}:\d{2}", line)` (unanchored at the
end): a line starting `H:MM` or `HH:MM`. -/
def timeStartChars (cs : List Char) : Bool :=
  match cs with
  | a :: b :: c :: d :: e :: _ =>
    (a.isDigit && b.isDigit && c = ':' && d.isDigit && e.isDigit) ||
      (a.isDigit && b = ':' && c.isDigit && d.isDigit)
  | [a, b, c, d] => a.isDigit && b = ':' && c.isDigit && d.isDigit
  | _ => false

/-- Matcher for `re.match(r"\(\d+\)\s*$", t)`: an opening parenthesis, at
least one digit, a closing parenthesis, then only whitespace. -/
def capExactChars (cs : List Char) : Bool :=
  match cs with
  | c :: rest =>
    c = '(' &&
      (let ds := rest.takeWhile (fun x => x.isDigit)
       (!ds.isEmpty) &&
         (match rest.drop ds.length with
          | p :: ws => p = ')' && ws.all isSpaceChar
          | [] => false))
  | [] => false

/-- Matcher for `re.search(r"\(\d+\)\s*$", line)`: the line ends with a
capacity marker `(<digits>)` followed only by whitespace. -/
def endsCapacityChars (cs : List Char) : Bool :=
  match cs.reverse.dropWhile isSpaceChar with
  | c :: rest =>
    c = ')' &&
      (let ds := rest.takeWhile (fun x => x.isDigit)
       (!ds.isEmpty) &&
         (match rest.drop ds.length with
          | p :: _ => p = '('
          | [] => false))
  | [] => false

/-- Python `line.rfind('(')`: index of the last occurrence, `none` for the
source's `-1`. -/
def rfindIdx (c : Char) : List Char → Option Nat
  | [] => none
  | x :: xs =>
    match rfindIdx c xs with
    | some j => some (j + 1)
    | none => if x = c then some 0 else none

/-- Prefix matcher for the triple pattern
`(\d+)\s*/\s*(\d+)\s*/\s*(\d+)\s*(.*)` of `re.match` on `ba_text`: returns
the three digit groups and the remainder after the trailing `\s*`.  Each
greedy `\d+`/`\s*` piece is followed by a character it cannot match, so
backtracking is vacuous and maximal munch is exact. -/
def parseTripleChars (cs : List Char) : Option (List Char × List Char × List Char × List Char) :=
  let d1 := cs.takeWhile (fun x => x.isDigit)
  if d1.isEmpty then none
  else
    match (cs.drop d1.length).dropWhile isSpaceChar with
    | '/' :: r2 =>
      let r2' := r2.dropWhile isSpaceChar
      let d2 := r2'.takeWhile (fun x => x.isDigit)
      if d2.isEmpty then none
      else
        match (r2'.drop d2.length).dropWhile isSpaceChar with
        | '/' :: r4 =>
          let r4' := r4.dropWhile isSpaceChar
          let d3 := r4'.takeWhile (fun x => x.isDigit)
          if d3.isEmpty then none
          else some (d1, d2, d3, (r4'.drop d3.length).dropWhile isSpaceChar)
        | _ => none
    | _ => none

/-- Start index of the leftmost match of
`re.search(r"\d+\s*/\s*\d+\s*/\s*\d+", line)` (`bn_match.start()`). -/
def findTripleStartAux : List Char → Nat → Option Nat
  | [], _ => none
  | c :: cs, i =>
    if (parseTripleChars (c :: cs)).isSome then some i
    else findTripleStartAux cs (i + 1)

/-- Leftmost triple-match start index, `none` when the search fails. -/
def findTripleStart (cs : List Char) : Option Nat := findTripleStartAux cs 0

/-- Characters matched by `[\d.,]` in the currency-amount pattern. -/
def isAmtChar (c : Char) : Bool := c.isDigit || c = '.' || c = ','

/-- Fuelled scanner for `re.findall(r"([\d.,]+)\s*€", rest)`: the list of
captured amount tokens in order, with the usual non-overlapping scan (on a
match the scan resumes after the `€`; on a failure it advances one
character).  Fuel at least the list length always suffices since every
step consumes at least one character. -/
def findAmountsAux : Nat → List Char → List (List Char)
  | 0, _ => []
  | _ + 1, [] => []
  | fuel + 1, c :: cs =>
    if isAmtChar c then
      let run := (c :: cs).takeWhile isAmtChar
      match ((c :: cs).drop run.length).dropWhile isSpaceChar with
      | e :: rest2 =>
        if e = '€' then run :: findAmountsAux fuel rest2
        else findAmountsAux fuel cs
      | [] => findAmountsAux fuel cs
    else findAmountsAux fuel cs

/-- All captures of `re.findall(r"([\d.,]+)\s*€", rest)`. -/
def findAmountsChars (cs : List Char) : List (List Char) :=
  findAmountsAux cs.length cs

/-- Python `rest.split(sep)` for a single-character separator: keeps empty
segments, like the source's `rest.split("€")`. -/
def splitOnChar (sep : Char) : List Char → List (List Char)
  | [] => [[]]
  | c :: cs =>
    let r := splitOnChar sep cs
    if c = sep then [] :: r
    else
      match r with
      | h :: t => (c :: h) :: t
      | [] => [[c]]

/-- Python `int(s)` on a digit string (the scanner only converts regex
`\d+` groups, which are nonempty digit runs). -/
def charsToNat (ds : List Char) : Nat :=
  ds.foldl (fun n c => n * 10 + (c.toNat - 48)) 0

/-- Python `str.split()` (split on whitespace runs, no empty words):
first split at every whitespace character, then drop empty segments. -/
def wordsOfAux : List Char → List (List Char)
  | [] => []
  | c :: cs =>
    let r := wordsOfAux cs
    if isSpaceChar c then [] :: r
    else
      match r with
      | [] => [[c]]
      | h :: t => (c :: h) :: t

/-- Python `event_part.split()`. -/
def wordsOf (cs : List Char) : List (List Char) :=
  (wordsOfAux cs).filter (fun w => !w.isEmpty)

/-- Python `" ".join(words)`. -/
def joinSpace : List (List Char) → List Char
  | [] => []
  | [w] => w
  | w :: ws => w ++ ' ' :: joinSpace ws

/-- Python `s.startswith(pre)` on character lists (first argument the
string, second the prefix); `String.startsWith` itself is extern-backed
and does not reduce in the kernel, so the scanner uses this list
version. -/
def listStartsWith : List Char → List Char → Bool
  | _, [] => true
  | [], _ :: _ => false
  | c :: cs, p :: ps => c = p && listStartsWith cs ps

/-- One payroll record, as built by `parse_payroll_pdf`: the dictionary
with keys date/time/event/studio/B/A/N/total; `B`, `A`, `N` and `total`
start as Python `None`, modelled by `Option`. -/
structure PayrollRecord where
  date : String
  time : String
  event : String
  studio : String
  B : Option Nat
  A : Option Nat
  N : Option Nat
  total : Option String
deriving Repr, DecidableEq

/-- The scanner's mutable locals: `current_date` (Python `None` or a
string, possibly empty), `current_record`, and the growing `records`
output list. -/
structure ScanState where
  currentDate : Option String
  currentRecord : Option PayrollRecord
  records : List PayrollRecord
deriving Repr, DecidableEq

/-- The source's `skip_lines` set of header/label lines. -/
def skipLines : List String :=
  ["Time Event Type", "Time", "Event Type", "Studio",
   "B / A /", "B / A / N*", "N*",
   "Base Bonus Total", "Base", "Bonus", "Total",
   "Bookings Attended No-shows Base Bonus Total",
   "Bookings", "Attended", "No-shows"]

/-- The source's `day_names` list. -/
def dayNames : List String :=
  ["Monday", "Tuesday", "Wednesday", "Thursday", "Friday", "Saturday", "Sunday"]

/-- Python truthiness of `current_date` in `if current_date:`: false for
`None` and for the empty string. -/
def dateTruthy : Option String → Bool
  | none => false
  | some s => !(s == "")

/-- The fresh record built in the time-stamp branch:
`parts_time = line.split(" ", 1)`, `time` from `parts_time[0]`, `event`
from the stripped second part when present. -/
def timestampNew (d : Option String) (line : List Char) : PayrollRecord :=
  let parts := pySplitSpace1 line
  { date := d.getD ("")
    time := String.mk (parts.getD 0 [])
    event := if parts.length > 1 then String.mk (pyStripChars (parts.getD 1 [])) else ("")
    studio := ""
    B := none, A := none, N := none, total := none }

/-- The duplicate-word detection of the capacity branch (guarded
`words[-1] == words[-2]` / `words[0] == words[-1]` accesses), total
version using defaulted indexing. -/
def dupCheck (ws : List (List Char)) : Option (List Char) :=
  let n := ws.length
  if n ≥ 2 then
    if ws.getD (n - 1) [] = ws.getD (n - 2) [] then some (ws.getD (n - 1) [])
    else if ws.getD 0 [] = ws.getD (n - 1) [] then some (ws.getD (n - 1) [])
    else none
  else none

/-- The duplicate-word repair and event/studio split of the capacity
branch (source lines 145-164): `none` when `rfind` fails or the tail does
not fully match the capacity pattern, in which case the source falls
through to the triple branch. -/
def capacitySplitChars (cs : List Char) : Option (List Char × List Char) :=
  match rfindIdx '(' cs with
  | none => none
  | some k =>
    if capExactChars (cs.drop k) then
      let ep := pyStripChars (cs.take k)
      let sp := pyStripChars (cs.drop k)
      let ws := wordsOf ep
      let n := ws.length
      let dup := dupCheck ws
      let ws2 := if dup.isSome then ws.take (n - 1) else ws
      let sp2 :=
        match dup with
        | some dw => if dw.isEmpty then sp else pyStripChars (dw ++ ' ' :: sp)
        | none => sp
      some (joinSpace ws2, sp2)
    else none

/-- The look-ahead of source lines 182-187: up to three consecutive
following lines whose stripped form ends in the currency symbol are
consumed; each contributes its stripped form minus the final symbol,
re-stripped.  Returns the collected values and the unconsumed suffix. -/
def euroLookahead : Nat → List String → List (List Char) × List String
  | 0, rest => ([], rest)
  | n + 1, rest =>
    match rest with
    | [] => ([], [])
    | l :: ls =>
      let v := pyStripChars l.data
      if v.getLast? = some '€' then
        let p := euroLookahead n ls
        (pyStripChars v.dropLast :: p.1, p.2)
      else ([], l :: ls)

/-- The triple/payment branch of the source (lines 166-200), entered with
`bn_match` starting at `idx`: updates `studio` with the text before the
triple, parses the triple into `B`/`A`/`N`, resolves `total` by the three
fallback strategies, and commits the record; when the inner `re.match`
fails nothing but `studio` changes and the record stays current.  Returns
(new current record, emitted records, remaining lines). -/
def tripleResolve (c : PayrollRecord) (lineChars : List Char) (idx : Nat)
    (rest : List String) :
    Option PayrollRecord × List PayrollRecord × List String :=
  let studioText := pyStripChars (lineChars.take idx)
  let c1 :=
    if studioText.isEmpty then c
    else { c with studio := String.mk (pyStripChars (c.studio.data ++ ' ' :: studioText)) }
  match parseTripleChars (pyStripChars (lineChars.drop idx)) with
  | none => (some c1, [], rest)
  | some (d1, d2, d3, restChars) =>
    let c2 := { c1 with B := some (charsToNat d1), A := some (charsToNat d2),
                        N := some (charsToNat d3) }
    let restS := pyStripChars restChars
    if restS.isEmpty then
      let p := euroLookahead 3 rest
      if p.1.length = 3 then
        (none, [{ c2 with total := some (String.mk (p.1.getD 2 [])) }], p.2)
      else (none, [c2], p.2)
    else
      let amts := findAmountsChars restS
      if amts.length ≥ 3 then
        (none, [{ c2 with total := some (String.mk (amts.getD 2 [])) }], rest)
      else
        let partsCur := ((splitOnChar '€' restS).map pyStripChars).filter (fun q => !q.isEmpty)
        if partsCur.length ≥ 3 then
          (none, [{ c2 with total := some (String.mk (partsCur.getD 2 [])) }], rest)
        else (none, [c2], rest)

/-- Dispatch after rules a-c: either the triple branch (rule 5d) or the
studio-continuation fallback (rule 5e, source line 203). -/
def tripleOrStudio (d : Option String) (r : PayrollRecord) (line : List Char)
    (lineS : String) (rest : List String) :
    Option String × Option PayrollRecord × List PayrollRecord × List String :=
  match findTripleStart line with
  | some idx =>
    let t := tripleResolve r line idx rest
    (d, t.1, t.2.1, t.2.2)
  | none =>
    let newStudio :=
      if r.studio = "" then lineS
      else String.mk (pyStripChars ((r.studio ++ " " ++ lineS).data))
    (d, some { r with studio := newStudio }, [], rest)

/-- One iteration of the scanner's `while` loop on the current (raw) line,
with `rest` the lines after it.  Returns the new `current_date`,
`current_record`, the records appended during this iteration, and the
lines left unconsumed by the iteration's look-aheads.  Faithful to source
lines 85-204 with `records.append` turned into emission. -/
def stepCore (d : Option String) (cur : Option PayrollRecord) (raw : String)
    (rest : List String) :
    Option String × Option PayrollRecord × List PayrollRecord × List String :=
  let line := pyStripChars raw.data
  let lineS := String.mk line
  if line.isEmpty ∨ lineS ∈ skipLines then (d, cur, [], rest)
  else if String.mk (firstTokenChars line) ∈ dayNames then
    let ds0 := afterFirstTokenChars line
    if ds0.isEmpty ∨ ¬ (isDateChars ds0 = true) then
      match rest with
      | nxt :: rs =>
        if isDateChars (pyStripChars nxt.data) then
          (some (String.mk (pyStripChars nxt.data)), none, [], rs)
        else (some (String.mk ds0), none, [], rest)
      | [] => (some (String.mk ds0), none, [], rest)
    else (some (String.mk ds0), none, [], rest)
  else if listStartsWith line ("Totals:").data then (none, none, [], rest)
  else if dateTruthy d then
    if timeStartChars line then
      let emitted :=
        match cur with
        | some r => if r.B = none then [r] else []
        | none => []
      (d, some (timestampNew d line), emitted, rest)
    else
      match cur with
      | none => (d, none, [], rest)
      | some r =>
        if listStartsWith line ("(").data then
          (d, some { r with event := r.event ++ " " ++ lineS }, [], rest)
        else if r.event = "" ∧ r.studio = "" ∧ endsCapacityChars line = false ∧
            findTripleStart line = none then
          (d, some { r with event := lineS }, [], rest)
        else if r.event = "" ∧ endsCapacityChars line = true then
          match capacitySplitChars line with
          | some p =>
            (d, some { r with event := String.mk p.1, studio := String.mk p.2 }, [], rest)
          | none => tripleOrStudio d r line lineS rest
        else tripleOrStudio d r line lineS rest
  else (d, cur, [], rest)

/-- One loop iteration at the state level: records emitted by `stepCore`
are appended to the output list (`records.append`). -/
def step (st : ScanState) (raw : String) (rest : List String) :
    ScanState × List String :=
  let q := stepCore st.currentDate st.currentRecord raw rest
  ({ currentDate := q.1, currentRecord := q.2.1,
     records := st.records ++ q.2.2.1 }, q.2.2.2)

/-- The scanner's `while i < len(lines)` loop, fuelled: each iteration
consumes at least the current line, so fuel `lines.length` suffices (a
theorem below).  Matches the source's cursor semantics with the cursor
replaced by suffix consumption. -/
def pyScanFuel : Nat → ScanState → List String → ScanState
  | 0, st, _ => st
  | _ + 1, st, [] => st
  | fuel + 1, st, l :: rest =>
    let p := step st l rest
    pyScanFuel fuel p.1 p.2

/-- The initial scanner state (`records = []`, `current_date = None`,
`current_record = None`). -/
def initState : ScanState :=
  { currentDate := none, currentRecord := none, records := [] }

/-- `parse_payroll_pdf` from the text-line list onward: the record list
produced by scanning all lines. -/
def parsePayrollLines (lines : List String) : List PayrollRecord :=
  (pyScanFuel lines.length initState lines).records

/-!
Checked variant of the scanner.  Python raises at unguarded list indexing
and at `int()` on non-digit text; every such spot in the loop
(`parts_time[0]`, `words[-1]`/`words[-2]`/`words[0]`, `values[2]`,
`currency_vals[2]`, `parts_cur[2]`, `int(m.group(k))`) is replaced below
by an `Option`-returning access that fails exactly where Python would
raise.  The safety claim is that this checked scanner never fails and
agrees with the total embedding above.
-/

/-- Checked `int(s)`: fails on an empty string or any non-digit character,
as Python `int` would raise `ValueError`. -/
def charsToNatE (ds : List Char) : Option Nat :=
  if ds.isEmpty then none
  else if ds.all (fun c => c.isDigit) then some (charsToNat ds) else none

/-- Checked time-stamp record builder: `parts_time[0]` (and the second
part when present) accessed through fallible indexing. -/
def timestampNewE (d : Option String) (line : List Char) : Option PayrollRecord := do
  let parts := pySplitSpace1 line
  let tok ← parts.get? 0
  let ev ←
    if parts.length > 1 then do
      let x ← parts.get? 1
      pure (String.mk (pyStripChars x))
    else pure ("")
  pure { date := d.getD (""), time := String.mk tok, event := ev, studio := "",
         B := none, A := none, N := none, total := none }

/-- Checked duplicate-word detection: the three word accesses through
fallible indexing; the outer `Option` is the error layer. -/
def dupCheckE (ws : List (List Char)) : Option (Option (List Char)) :=
  let n := ws.length
  if n ≥ 2 then do
    let a ← ws.get? (n - 1)
    let b ← ws.get? (n - 2)
    let c0 ← ws.get? 0
    if a = b then pure (some a)
    else if c0 = a then pure (some a)
    else pure none
  else pure none

/-- Checked capacity split: `some none` models the source's fall-through
(inner `re.match` or `rfind` failure), the outer `none` an indexing
error. -/
def capacitySplitCharsE (cs : List Char) : Option (Option (List Char × List Char)) :=
  match rfindIdx '(' cs with
  | none => some none
  | some k =>
    if capExactChars (cs.drop k) then
      let ep := pyStripChars (cs.take k)
      let sp := pyStripChars (cs.drop k)
      let ws := wordsOf ep
      let n := ws.length
      match dupCheckE ws with
      | none => none
      | some dup =>
        let ws2 := if dup.isSome then ws.take (n - 1) else ws
        let sp2 :=
          match dup with
          | some dw => if dw.isEmpty then sp else pyStripChars (dw ++ ' ' :: sp)
          | none => sp
        some (some (joinSpace ws2, sp2))
    else some none

/-- Checked triple/payment branch: `int` conversions and the three
`..[2]` accesses through fallible operations. -/
def tripleResolveE (c : PayrollRecord) (lineChars : List Char) (idx : Nat)
    (rest : List String) :
    Option (Option PayrollRecord × List PayrollRecord × List String) :=
  let studioText := pyStripChars (lineChars.take idx)
  let c1 :=
    if studioText.isEmpty then c
    else { c with studio := String.mk (pyStripChars (c.studio.data ++ ' ' :: studioText)) }
  match parseTripleChars (pyStripChars (lineChars.drop idx)) with
  | none => some (some c1, [], rest)
  | some (d1, d2, d3, restChars) => do
    let b ← charsToNatE d1
    let a ← charsToNatE d2
    let nn ← charsToNatE d3
    let c2 := { c1 with B := some b, A := some a, N := some nn }
    let restS := pyStripChars restChars
    if restS.isEmpty then
      let p := euroLookahead 3 rest
      if p.1.length = 3 then do
        let t ← p.1.get? 2
        pure (none, [{ c2 with total := some (String.mk t) }], p.2)
      else pure (none, [c2], p.2)
    else
      let amts := findAmountsChars restS
      if amts.length ≥ 3 then do
        let t ← amts.get? 2
        pure (none, [{ c2 with total := some (String.mk t) }], rest)
      else
        let partsCur := ((splitOnChar '€' restS).map pyStripChars).filter (fun q => !q.isEmpty)
        if partsCur.length ≥ 3 then do
          let t ← partsCur.get? 2
          pure (none, [{ c2 with total := some (String.mk t) }], rest)
        else pure (none, [c2], rest)

/-- Checked dispatch after rules a-c. -/
def tripleOrStudioE (d : Option String) (r : PayrollRecord) (line : List Char)
    (lineS : String) (rest : List String) :
    Option (Option String × Option PayrollRecord × List PayrollRecord × List String) :=
  match findTripleStart line with
  | some idx => do
    let t ← tripleResolveE r line idx rest
    pure (d, t.1, t.2.1, t.2.2)
  | none =>
    let newStudio :=
      if r.studio = "" then lineS
      else String.mk (pyStripChars ((r.studio ++ " " ++ lineS).data))
    some (d, some { r with studio := newStudio }, [], rest)

/-- Checked loop iteration. -/
def stepCoreE (d : Option String) (cur : Option PayrollRecord) (raw : String)
    (rest : List String) :
    Option (Option String × Option PayrollRecord × List PayrollRecord × List String) :=
  let line := pyStripChars raw.data
  let lineS := String.mk line
  if line.isEmpty ∨ lineS ∈ skipLines then some (d, cur, [], rest)
  else if String.mk (firstTokenChars line) ∈ dayNames then
    let ds0 := afterFirstTokenChars line
    if ds0.isEmpty ∨ ¬ (isDateChars ds0 = true) then
      match rest with
      | nxt :: rs =>
        if isDateChars (pyStripChars nxt.data) then
          some (some (String.mk (pyStripChars nxt.data)), none, [], rs)
        else some (some (String.mk ds0), none, [], rest)
      | [] => some (some (String.mk ds0), none, [], rest)
    else some (some (String.mk ds0), none, [], rest)
  else if listStartsWith line ("Totals:").data then some (none, none, [], rest)
  else if dateTruthy d then
    if timeStartChars line then
      let emitted :=
        match cur with
        | some r => if r.B = none then [r] else []
        | none => []
      do
        let nr ← timestampNewE d line
        pure (d, some nr, emitted, rest)
    else
      match cur with
      | none => some (d, none, [], rest)
      | some r =>
        if listStartsWith line ("(").data then
          some (d, some { r with event := r.event ++ " " ++ lineS }, [], rest)
        else if r.event = "" ∧ r.studio = "" ∧ endsCapacityChars line = false ∧
            findTripleStart line = none then
          some (d, some { r with event := lineS }, [], rest)
        else if r.event = "" ∧ endsCapacityChars line = true then
          match capacitySplitCharsE line with
          | none => none
          | some (some p) =>
            some (d, some { r with event := String.mk p.1, studio := String.mk p.2 }, [], rest)
          | some none => tripleOrStudioE d r line lineS rest
        else tripleOrStudioE d r line lineS rest
  else some (d, cur, [], rest)

/-- Checked loop iteration at the state level. -/
def stepE (st : ScanState) (raw : String) (rest : List String) :
    Option (ScanState × List String) := do
  let q ← stepCoreE st.currentDate st.currentRecord raw rest
  pure ({ currentDate := q.1, currentRecord := q.2.1,
          records := st.records ++ q.2.2.1 }, q.2.2.2)

/-- Checked scanner loop. -/
def pyScanFuelE : Nat → ScanState → List String → Option ScanState
  | 0, st, _ => some st
  | _ + 1, st, [] => some st
  | fuel + 1, st, l :: rest => do
    let p ← stepE st l rest
    pyScanFuelE fuel p.1 p.2

/-- Checked `parse_payroll_pdf` from the line list onward. -/
def parsePayrollLinesE (lines : List String) : Option (List PayrollRecord) :=
  (pyScanFuelE lines.length initState lines).map ScanState.records

/-!
Equivalence of the checked scanner with the total one: every guard in the
source protects its fallible operation, so no error branch is reachable.
-/

/-- Fallible indexing succeeds below the length, returning the defaulted
value. -/
theorem get?_eq_some_getD {α : Type} (l : List α) (n : Nat) (dflt : α)
    (h : n < l.length) : l.get? n = some (l.getD n dflt) := by
  cases hx : l.get? n with
  | none => rw [List.get?_eq_none] at hx; omega
  | some a =>
    have hd : l.getD n dflt = a := by
      rw [List.getD_eq_getElem?_getD, ← List.get?_eq_getElem?, hx]; rfl
    rw [hd]

/-- Checked `int` succeeds on any nonempty digit run produced by a regex
`\d+` group. -/
theorem charsToNatE_of_digits (ds : List Char)
    (hall : ds.all (fun c => c.isDigit) = true) (hne : ds.isEmpty = false) :
    charsToNatE ds = some (charsToNat ds) := by
  unfold charsToNatE
  rw [hne, hall]
  rfl

/-- The three groups extracted by the triple matcher are nonempty digit
runs, so the checked `int` conversions succeed on them. -/
theorem parseTripleChars_digits {cs d1 d2 d3 r : List Char}
    (h : parseTripleChars cs = some (d1, d2, d3, r)) :
    charsToNatE d1 = some (charsToNat d1) ∧
      charsToNatE d2 = some (charsToNat d2) ∧
      charsToNatE d3 = some (charsToNat d3) := by
  unfold parseTripleChars at h
  dsimp only at h
  split at h
  · exact absurd h (by simp)
  · split at h
    · split at h
      · exact absurd h (by simp)
      · split at h
        · split at h
          · exact absurd h (by simp)
          · simp only [Option.some.injEq, Prod.mk.injEq] at h
            obtain ⟨h1, h2, h3, h4⟩ := h
            subst h1; subst h2; subst h3
            refine ⟨charsToNatE_of_digits _ (List.all_takeWhile ..) ?_,
                    charsToNatE_of_digits _ (List.all_takeWhile ..) ?_,
                    charsToNatE_of_digits _ (List.all_takeWhile ..) ?_⟩ <;>
              simp_all
        · exact absurd h (by simp)
    · exact absurd h (by simp)

/-- The checked time-stamp record builder never fails: `line.split(" ", 1)`
always has a first part. -/
theorem timestampNewE_eq (d : Option String) (line : List Char) :
    timestampNewE d line = some (timestampNew d line) := by
  unfold timestampNewE timestampNew pySplitSpace1
  dsimp only
  split <;> rfl

/-- The checked duplicate-word detection never fails: all three accesses
are guarded by `len(words) >= 2`. -/
theorem dupCheckE_eq (ws : List (List Char)) :
    dupCheckE ws = some (dupCheck ws) := by
  unfold dupCheckE dupCheck
  by_cases h : ws.length ≥ 2
  · rw [if_pos h, if_pos h,
      get?_eq_some_getD ws (ws.length - 1) [] (by omega),
      get?_eq_some_getD ws (ws.length - 2) [] (by omega),
      get?_eq_some_getD ws 0 [] (by omega)]
    simp only [Option.pure_def, Option.bind_eq_bind, Option.some_bind]
    split
    · rfl
    · split <;> rfl
  · rw [if_neg h, if_neg h]
    rfl

/-- The checked capacity split never fails. -/
theorem capacitySplitCharsE_eq (cs : List Char) :
    capacitySplitCharsE cs = some (capacitySplitChars cs) := by
  unfold capacitySplitCharsE capacitySplitChars
  cases rfindIdx '(' cs with
  | none => rfl
  | some k =>
    dsimp only
    split
    · rw [dupCheckE_eq]
    · rfl

/-- The checked triple/payment branch never fails: the `int` conversions
receive regex digit groups and the three `[2]` accesses are guarded by
the corresponding length tests. -/
theorem tripleResolveE_eq (c : PayrollRecord) (lineChars : List Char) (idx : Nat)
    (rest : List String) :
    tripleResolveE c lineChars idx rest = some (tripleResolve c lineChars idx rest) := by
  unfold tripleResolveE tripleResolve
  dsimp only
  cases hp : parseTripleChars (pyStripChars (lineChars.drop idx)) with
  | none => rfl
  | some q =>
    obtain ⟨d1, d2, d3, rc⟩ := q
    obtain ⟨h1, h2, h3⟩ := parseTripleChars_digits hp
    dsimp only
    rw [h1, h2, h3]
    simp only [Option.pure_def, Option.bind_eq_bind, Option.some_bind]
    split
    · split
      · rename_i hlen
        rw [get?_eq_some_getD _ 2 [] (by omega)]
        simp only [Option.some_bind]
      · rfl
    · split
      · rename_i hlen
        rw [get?_eq_some_getD _ 2 [] (by omega)]
        simp only [Option.some_bind]
      · split
        · rename_i hlen
          rw [get?_eq_some_getD _ 2 [] (by omega)]
          simp only [Option.some_bind]
        · rfl

/-- The checked rule-d/rule-e dispatch never fails. -/
theorem tripleOrStudioE_eq (d : Option String) (r : PayrollRecord) (line : List Char)
    (lineS : String) (rest : List String) :
    tripleOrStudioE d r line lineS rest = some (tripleOrStudio d r line lineS rest) := by
  unfold tripleOrStudioE tripleOrStudio
  cases findTripleStart line with
  | none => rfl
  | some idx =>
    dsimp only
    rw [tripleResolveE_eq]
    simp only [Option.pure_def, Option.bind_eq_bind, Option.some_bind]

/-- One checked loop iteration never fails. -/
theorem stepCoreE_eq (d : Option String) (cur : Option PayrollRecord) (raw : String)
    (rest : List String) :
    stepCoreE d cur raw rest = some (stepCore d cur raw rest) := by
  unfold stepCoreE stepCore
  dsimp only
  split
  · rfl
  · split
    · split
      · split <;> first | rfl | (split <;> rfl)
      · rfl
    · split
      · rfl
      · split
        · split
          · rw [timestampNewE_eq]
            simp only [Option.pure_def, Option.bind_eq_bind, Option.some_bind]
          · split
            · rfl
            · split
              · rfl
              · split
                · rfl
                · split
                  · rw [capacitySplitCharsE_eq]
                    cases hcs : capacitySplitChars (pyStripChars raw.data) with
                    | none => exact tripleOrStudioE_eq ..
                    | some p => rfl
                  · exact tripleOrStudioE_eq ..
        · rfl

/-- One checked state-level iteration never fails. -/
theorem stepE_eq (st : ScanState) (raw : String) (rest : List String) :
    stepE st raw rest = some (step st raw rest) := by
  unfold stepE step
  rw [stepCoreE_eq]
  simp only [Option.pure_def, Option.bind_eq_bind, Option.some_bind]

/-- The checked scanner loop never fails. -/
theorem pyScanFuelE_eq (fuel : Nat) :
    ∀ (st : ScanState) (ls : List String),
      pyScanFuelE fuel st ls = some (pyScanFuel fuel st ls) := by
  induction fuel with
  | zero => intro st ls; rfl
  | succ f ih =>
    intro st ls
    cases ls with
    | nil => rfl
    | cons l rest =>
      unfold pyScanFuelE pyScanFuel
      rw [stepE_eq]
      simp only [Option.pure_def, Option.bind_eq_bind, Option.some_bind]
      exact ih ..

/-!
Progress and frame lemmas for the loop: every iteration consumes at least
the current line (look-aheads only consume more), and the records list is
only ever appended to.
-/

/-- The currency look-ahead consumes lines only from the front of the
remaining list. -/
theorem euroLookahead_len (n : Nat) :
    ∀ (rest : List String), (euroLookahead n rest).2.length ≤ rest.length := by
  induction n with
  | zero => intro rest; exact Nat.le_refl _
  | succ m ih =>
    intro rest
    cases rest with
    | nil => exact Nat.le_refl _
    | cons l ls =>
      unfold euroLookahead
      dsimp only
      split
      · simp only [List.length_cons]
        exact Nat.le_trans (ih ls) (Nat.le_succ _)
      · exact Nat.le_refl _

/-- The triple branch leaves the remaining lines no longer than before. -/
theorem tripleResolve_len (c : PayrollRecord) (lineChars : List Char) (idx : Nat)
    (rest : List String) :
    (tripleResolve c lineChars idx rest).2.2.length ≤ rest.length := by
  unfold tripleResolve
  dsimp only
  split
  · exact Nat.le_refl _
  · split
    · split
      · exact euroLookahead_len 3 rest
      · exact euroLookahead_len 3 rest
    · split
      · exact Nat.le_refl _
      · split
        · exact Nat.le_refl _
        · exact Nat.le_refl _

/-- The rule-d/rule-e dispatch leaves the remaining lines no longer than
before. -/
theorem tripleOrStudio_len (d : Option String) (r : PayrollRecord) (line : List Char)
    (lineS : String) (rest : List String) :
    (tripleOrStudio d r line lineS rest).2.2.2.length ≤ rest.length := by
  unfold tripleOrStudio
  cases findTripleStart line with
  | none => exact Nat.le_refl _
  | some idx => exact tripleResolve_len ..

/-- Any single loop iteration leaves the remaining lines no longer than
before: the cursor never moves backwards. -/
theorem stepCore_len (d : Option String) (cur : Option PayrollRecord) (raw : String)
    (rest : List String) :
    (stepCore d cur raw rest).2.2.2.length ≤ rest.length := by
  unfold stepCore
  dsimp only
  repeat' split
  all_goals
    first
      | exact Nat.le_refl _
      | (simp only [List.length_cons]; exact Nat.le_succ _)
      | exact tripleOrStudio_len ..

/-- State-level restatement of `stepCore_len`. -/
theorem step_len (st : ScanState) (raw : String) (rest : List String) :
    (step st raw rest).2.length ≤ rest.length :=
  stepCore_len st.currentDate st.currentRecord raw rest

/-- The empty line list is a fixed point for any fuel. -/
theorem pyScanFuel_nil (f : Nat) (st : ScanState) : pyScanFuel f st [] = st := by
  cases f <;> rfl

/-- Fuel adequacy: with fuel at least the number of lines, extra fuel does
not change the scan result; the loop really terminates after consuming all
lines. -/
theorem pyScanFuel_add (k : Nat) :
    ∀ (f : Nat) (st : ScanState) (ls : List String), ls.length ≤ f →
      pyScanFuel (f + k) st ls = pyScanFuel f st ls := by
  intro f
  induction f with
  | zero =>
    intro st ls h
    have hnil : ls = [] := List.eq_nil_of_length_eq_zero (Nat.le_zero.mp h)
    subst hnil
    rw [pyScanFuel_nil, pyScanFuel_nil]
  | succ f ih =>
    intro st ls h
    cases ls with
    | nil => rw [pyScanFuel_nil, pyScanFuel_nil]
    | cons l rest =>
      rw [Nat.succ_add]
      show pyScanFuel (f + k) (step st l rest).1 (step st l rest).2 =
        pyScanFuel f (step st l rest).1 (step st l rest).2
      refine ih _ _ (Nat.le_trans (step_len st l rest) ?_)
      simpa using h

/-- Frame property of the loop: the records already accumulated are
carried through unchanged and only appended to; the rest of the scan is
insensitive to them. -/
theorem pyScanFuel_frame (f : Nat) :
    ∀ (d : Option String) (c : Option PayrollRecord) (rs : List PayrollRecord)
      (ls : List String),
      pyScanFuel f ⟨d, c, rs⟩ ls =
        ⟨(pyScanFuel f ⟨d, c, []⟩ ls).currentDate,
         (pyScanFuel f ⟨d, c, []⟩ ls).currentRecord,
         rs ++ (pyScanFuel f ⟨d, c, []⟩ ls).records⟩ := by
  induction f with
  | zero => intro d c rs ls; simp [pyScanFuel]
  | succ f ih =>
    intro d c rs ls
    cases ls with
    | nil => simp [pyScanFuel]
    | cons l rest =>
      show pyScanFuel f (step ⟨d, c, rs⟩ l rest).1 (step ⟨d, c, rs⟩ l rest).2 =
        ⟨(pyScanFuel f (step ⟨d, c, []⟩ l rest).1 (step ⟨d, c, []⟩ l rest).2).currentDate,
         (pyScanFuel f (step ⟨d, c, []⟩ l rest).1 (step ⟨d, c, []⟩ l rest).2).currentRecord,
         rs ++ (pyScanFuel f (step ⟨d, c, []⟩ l rest).1 (step ⟨d, c, []⟩ l rest).2).records⟩
      unfold step
      dsimp only
      rw [List.nil_append]
      rw [ih (stepCore d c l rest).1 (stepCore d c l rest).2.1
            (rs ++ (stepCore d c l rest).2.2.1) (stepCore d c l rest).2.2.2,
          ih (stepCore d c l rest).1 (stepCore d c l rest).2.1
            (stepCore d c l rest).2.2.1 (stepCore d c l rest).2.2.2]
      simp [List.append_assoc]

/-!
Claim theorems.
-/

/-- Claim C4: scanning the three lines "Tuesday 04.02.2025",
"18:30 Spin Class", "Studio A 10/8/2 5,00 € 10,00 € 40,00 €" produces
exactly one record with date "04.02.2025", time "18:30", event
"Spin Class", studio "Studio A", bookings 10, attended 8, no-shows 2 and
total "40,00". -/
theorem c4_minimal_record_scenario :
    parsePayrollLines ["Tuesday 04.02.2025", "18:30 Spin Class",
        "Studio A 10/8/2 5,00 € 10,00 € 40,00 €"] =
      [{ date := "04.02.2025", time := "18:30", event := "Spin Class",
         studio := "Studio A", B := some 10, A := some 8, N := some 2,
         total := some ("40,00") }] := by
  rfl

/-- Claim C1, counterexample: a time-stamp line followed by another
time-stamp line with no triple in between emits ONE record, not zero, and
that record has a null bookings/attended/no-shows triple — the source
appends the incomplete current record at a time-stamp boundary
(`records.append(current_record)` under `current_record.get("B") is
None`), it does not drop it. -/
theorem c1_counterexample :
    (parsePayrollLines ["Monday 01.01.2025", "10:00 A", "11:00 B"]).map
        PayrollRecord.B = [none] ∧
      parsePayrollLines ["Monday 01.01.2025", "10:00 A", "11:00 B"] ≠ [] := by
  exact ⟨rfl, by decide⟩

/-- Claim C1, amended: when a time-stamp line is recognized while a
current record whose triple is still null is open, that incomplete record
is APPENDED to the output (emitted with null `B`/`A`/`N`) and the fresh
time-stamp record becomes current; so two consecutive time-stamp lines
with no triple between them emit exactly one (incomplete) record for that
span, and emitted records do not all carry a non-null triple. -/
theorem c1_amended_timestamp_appends_incomplete
    (d : Option String) (r : PayrollRecord) (raw : String) (rest : List String)
    (hblank : ¬ ((pyStripChars raw.data).isEmpty = true ∨
      String.mk (pyStripChars raw.data) ∈ skipLines))
    (hday : String.mk (firstTokenChars (pyStripChars raw.data)) ∉ dayNames)
    (htot : ¬ listStartsWith (pyStripChars raw.data) ("Totals:").data = true)
    (hdate : dateTruthy d = true)
    (htime : timeStartChars (pyStripChars raw.data) = true)
    (hB : r.B = none) :
    stepCore d (some r) raw rest =
      (d, some (timestampNew d (pyStripChars raw.data)), [r], rest) := by
  unfold stepCore
  dsimp only
  rw [if_neg hblank, if_neg hday, if_neg htot, if_pos hdate, if_pos htime, hB]
  rfl

/-- Claim C1, witness for the amended theorem at a concrete input. -/
theorem c1_amended_witness :
    stepCore (some ("01.01.2025"))
        (some { date := "01.01.2025", time := "10:00", event := "A", studio := "",
                B := none, A := none, N := none, total := none })
        ("11:00 B") [] =
      (some ("01.01.2025"),
       some (timestampNew (some ("01.01.2025")) (pyStripChars ("11:00 B").data)),
       [{ date := "01.01.2025", time := "10:00", event := "A", studio := "",
          B := none, A := none, N := none, total := none }], []) :=
  c1_amended_timestamp_appends_incomplete _ _ _ _ (by decide) (by decide)
    (by decide) (by decide) (by decide) rfl

/-- Claim C2, counterexample: for an open current record with empty event
and studio, the line "Pilates Pilates Studio B (12)" does NOT yield
event "Pilates" / studio "Pilates Studio B (12)": the duplicate-word
heuristic compares only the last two words ("Studio", "B") and the first
and last words ("Pilates", "B"), finds no duplicate, and splits at the
last parenthesis, yielding event "Pilates Pilates Studio B" and studio
"(12)". -/
theorem c2_counterexample :
    ((stepCore (some ("01.01.2025"))
          (some { date := "01.01.2025", time := "09:00", event := "", studio := "",
                  B := none, A := none, N := none, total := none })
          ("Pilates Pilates Studio B (12)") []).2.1.map PayrollRecord.event =
        some ("Pilates Pilates Studio B")) ∧
      ¬ (((stepCore (some ("01.01.2025"))
            (some { date := "01.01.2025", time := "09:00", event := "", studio := "",
                    B := none, A := none, N := none, total := none })
            ("Pilates Pilates Studio B (12)") []).2.1.map PayrollRecord.event =
          some ("Pilates")) ∧
        ((stepCore (some ("01.01.2025"))
            (some { date := "01.01.2025", time := "09:00", event := "", studio := "",
                    B := none, A := none, N := none, total := none })
            ("Pilates Pilates Studio B (12)") []).2.1.map PayrollRecord.studio =
          some ("Pilates Studio B (12)"))) := by
  exact ⟨rfl, by decide⟩

/-- Claim C2, amended: in that state the line "Pilates Pilates Studio B
(12)" yields event "Pilates Pilates Studio B" and studio "(12)" (no
duplicate detected, since the heuristic only compares the last two words
and the first word with the last); the heuristic does fire on a line such
as "Pilates Pilates (12)", whose last two words coincide, yielding event
"Pilates" and studio "Pilates (12)". -/
theorem c2_amended_duplicate_word_split :
    (stepCore (some ("01.01.2025"))
        (some { date := "01.01.2025", time := "09:00", event := "", studio := "",
                B := none, A := none, N := none, total := none })
        ("Pilates Pilates Studio B (12)") [] =
      (some ("01.01.2025"),
       some { date := "01.01.2025", time := "09:00",
              event := "Pilates Pilates Studio B", studio := "(12)",
              B := none, A := none, N := none, total := none }, [], [])) ∧
    (stepCore (some ("01.01.2025"))
        (some { date := "01.01.2025", time := "09:00", event := "", studio := "",
                B := none, A := none, N := none, total := none })
        ("Pilates Pilates (12)") [] =
      (some ("01.01.2025"),
       some { date := "01.01.2025", time := "09:00",
              event := "Pilates", studio := "Pilates (12)",
              B := none, A := none, N := none, total := none }, [], [])) := by
  exact ⟨rfl, rfl⟩

/-- Claim C3, counterexample: after the header "Monday junk" (weekday
followed by text matching no date pattern, next line not a date either)
the scanner does NOT reset the date to an inactive state: the junk
remainder becomes the section date, a subsequent time-stamp line starts a
record, and a record with date "junk" is emitted — not zero records. -/
theorem c3_counterexample :
    parsePayrollLines ["Monday junk", "07:00 X", "S 1/1/0 1 € 2 € 3 €"] =
        [{ date := "junk", time := "07:00", event := "X", studio := "S",
           B := some 1, A := some 1, N := some 0, total := some ("3") }] ∧
      parsePayrollLines ["Monday junk", "07:00 X", "S 1/1/0 1 € 2 € 3 €"] ≠ [] := by
  exact ⟨rfl, by decide⟩

/-- Claim C3, amended: when a weekday header's remainder does not match
the date pattern and the next line does not either, the current date is
set to that remainder text: with a nonempty remainder the section stays
active (with the junk text as date) and time-stamp lines DO start
records; only when the weekday line has no remainder at all does the date
become the falsy empty string, so that subsequent time-stamp lines start
no records. -/
theorem c3_amended_unparsable_header :
    (parsePayrollLines ["Monday junk", "07:00 X", "S 1/1/0 1 € 2 € 3 €"]).map
        PayrollRecord.date = [("junk")] ∧
      parsePayrollLines ["Monday", "07:00 X", "S 1/1/0 1 € 2 € 3 €"] = [] := by
  exact ⟨rfl, rfl⟩

/-- Claim C7: the scanner never fails on line content — the checked
scanner, in which every Python raise point (list indexing, `int`
conversion) is a fallible operation, runs to completion on every line
sequence and returns exactly the total embedding's record list. -/
theorem c7_scanner_never_fails (lines : List String) :
    parsePayrollLinesE lines = some (parsePayrollLines lines) := by
  unfold parsePayrollLinesE parsePayrollLines
  rw [pyScanFuelE_eq]
  rfl

/-- Claim C8: the output list is append-only — from any scan state, the
records already emitted form a prefix of the records after scanning any
further lines with any fuel, and the number of emitted records is
monotonically non-decreasing. -/
theorem c8_append_only (f : Nat) (st : ScanState) (ls : List String) :
    ∃ t, (pyScanFuel f st ls).records = st.records ++ t ∧
      st.records.length ≤ (pyScanFuel f st ls).records.length := by
  obtain ⟨d, c, rs⟩ := st
  refine ⟨(pyScanFuel f ⟨d, c, []⟩ ls).records, ?_, ?_⟩
  · rw [pyScanFuel_frame f d c rs ls]
  · rw [pyScanFuel_frame f d c rs ls]
    simp

/-- Claim C9: the scan is deterministic and keeps no hidden state —
rescanning the same lines yields the same list, and the records produced
by a scan do not depend on records accumulated earlier (frame property:
a previous run's output, carried in the state, is merely prepended and
never alters the newly produced records). -/
theorem c9_deterministic_no_hidden_state (lines : List String) (f : Nat)
    (d : Option String) (c : Option PayrollRecord) (rs : List PayrollRecord)
    (ls : List String) :
    parsePayrollLines lines = parsePayrollLines lines ∧
      (pyScanFuel f ⟨d, c, rs⟩ ls).records =
        rs ++ (pyScanFuel f ⟨d, c, []⟩ ls).records := by
  exact ⟨rfl, by rw [pyScanFuel_frame f d c rs ls]⟩

/-- Claim C10: the scan terminates on every finite line sequence — each
loop iteration consumes at least the current line (the remaining-line
list never grows), and fuel equal to the number of lines is enough: any
larger fuel yields the same final state. -/
theorem c10_scan_terminates :
    (∀ (st : ScanState) (l : String) (rest : List String),
        (step st l rest).2.length ≤ rest.length) ∧
      (∀ (lines : List String) (fuel : Nat), lines.length ≤ fuel →
        pyScanFuel fuel initState lines = pyScanFuel lines.length initState lines) := by
  constructor
  · exact step_len
  · intro lines fuel h
    have hsplit : fuel = lines.length + (fuel - lines.length) := by omega
    rw [hsplit, pyScanFuel_add (fuel - lines.length) lines.length initState lines
      (Nat.le_refl _)]

/-- Claim C10, witness at a concrete input. -/
theorem c10_witness :
    (step initState ("x") []).2.length ≤ ([] : List String).length ∧
      pyScanFuel 5 initState ["Totals:"] = pyScanFuel 1 initState ["Totals:"] :=
  ⟨c10_scan_terminates.1 initState ("x") [],
   c10_scan_terminates.2 ["Totals:"] 5 (by decide)⟩

/-- Claim C5: a "Totals:" line clears the active date and any in-progress
record and emits nothing (first part); and while no date is active, any
non-blank, non-skip, non-header, non-"Totals:" line — in particular a
time-stamp line — changes nothing: no record is opened and none is
emitted (second part). -/
theorem c5_section_reset
    (d : Option String) (cur : Option PayrollRecord) (raw : String)
    (rest : List String) (d2 : Option String) (cur2 : Option PayrollRecord)
    (raw2 : String) (rest2 : List String) :
    ((¬ ((pyStripChars raw.data).isEmpty = true ∨
        String.mk (pyStripChars raw.data) ∈ skipLines)) →
      String.mk (firstTokenChars (pyStripChars raw.data)) ∉ dayNames →
      listStartsWith (pyStripChars raw.data) ("Totals:").data = true →
      stepCore d cur raw rest = (none, none, [], rest)) ∧
    ((¬ ((pyStripChars raw2.data).isEmpty = true ∨
        String.mk (pyStripChars raw2.data) ∈ skipLines)) →
      String.mk (firstTokenChars (pyStripChars raw2.data)) ∉ dayNames →
      ¬ listStartsWith (pyStripChars raw2.data) ("Totals:").data = true →
      dateTruthy d2 = false →
      stepCore d2 cur2 raw2 rest2 = (d2, cur2, [], rest2)) := by
  constructor
  · intro h1 h2 h3
    unfold stepCore
    dsimp only
    rw [if_neg h1, if_neg h2, if_pos h3]
  · intro h1 h2 h3 h4
    unfold stepCore
    dsimp only
    rw [if_neg h1, if_neg h2, if_neg h3, if_neg (by simp [h4])]

/-- Claim C5, witness at concrete inputs: a "Totals: 99" line with an
active date, and a "10:00 X" time-stamp line with no active date. -/
theorem c5_witness :
    stepCore (some ("01.01.2025")) none ("Totals: 99") ["x"] =
        (none, none, [], ["x"]) ∧
      stepCore none none ("10:00 X") ["y"] = (none, none, [], ["y"]) :=
  ⟨(c5_section_reset (some ("01.01.2025")) none ("Totals: 99") ["x"]
        none none ("10:00 X") ["y"]).1 (by decide) (by decide) (by decide),
   (c5_section_reset (some ("01.01.2025")) none ("Totals: 99") ["x"]
        none none ("10:00 X") ["y"]).2 (by decide) (by decide) (by decide)
        (by decide)⟩

/-- Claim C6: on a line whose bookings/attended/no-shows triple has
nothing after it (empty trailing remainder after the match), reached with
an active date and an open current record (with nonempty event so the
earlier rules do not fire and an unset total as at record creation), the
scanner consumes up to three immediately following lines that end with
the currency symbol (`euroLookahead 3`), takes the third collected value
as the total exactly when three were collected, and — regardless of
whether that succeeded — commits exactly one record carrying the parsed
triple to the output and clears the current record. -/
theorem c6_total_lookahead_commit
    (d : Option String) (r : PayrollRecord) (raw : String) (rest : List String)
    (idx : Nat) (g1 g2 g3 : List Char)
    (hblank : ¬ ((pyStripChars raw.data).isEmpty = true ∨
      String.mk (pyStripChars raw.data) ∈ skipLines))
    (hday : String.mk (firstTokenChars (pyStripChars raw.data)) ∉ dayNames)
    (htot : ¬ listStartsWith (pyStripChars raw.data) ("Totals:").data = true)
    (hdate : dateTruthy d = true)
    (htime : timeStartChars (pyStripChars raw.data) = false)
    (hparen : listStartsWith (pyStripChars raw.data) ("(").data = false)
    (hev : r.event ≠ "")
    (htotal : r.total = none)
    (hfind : findTripleStart (pyStripChars raw.data) = some idx)
    (htriple : parseTripleChars (pyStripChars ((pyStripChars raw.data).drop idx)) =
      some (g1, g2, g3, [])) :
    (stepCore d (some r) raw rest).1 = d ∧
    (stepCore d (some r) raw rest).2.1 = none ∧
    (∃ rec, (stepCore d (some r) raw rest).2.2.1 = [rec] ∧
      rec.B = some (charsToNat g1) ∧ rec.A = some (charsToNat g2) ∧
      rec.N = some (charsToNat g3) ∧
      rec.total = (if (euroLookahead 3 rest).1.length = 3
        then some (String.mk ((euroLookahead 3 rest).1.getD 2 []))
        else none)) ∧
    (stepCore d (some r) raw rest).2.2.2 = (euroLookahead 3 rest).2 := by
  have hstep : stepCore d (some r) raw rest =
      tripleOrStudio d r (pyStripChars raw.data) (String.mk (pyStripChars raw.data))
        rest := by
    unfold stepCore
    dsimp only
    rw [if_neg hblank, if_neg hday, if_neg htot, if_pos hdate,
      if_neg (by simp [htime]), if_neg (by simp [hparen]),
      if_neg (fun hc => hev hc.1), if_neg (fun hc => hev hc.1)]
  rw [hstep]
  unfold tripleOrStudio
  rw [hfind]
  dsimp only
  unfold tripleResolve
  rw [htriple]
  dsimp only
  rw [if_pos (show (pyStripChars ([] : List Char)).isEmpty = true from rfl)]
  by_cases hstudio : (pyStripChars ((pyStripChars raw.data).take idx)).isEmpty = true
  · rw [if_pos hstudio]
    by_cases hlen : (euroLookahead 3 rest).1.length = 3
    · rw [if_pos hlen, if_pos hlen]
      exact ⟨rfl, rfl, ⟨_, rfl, rfl, rfl, rfl, rfl⟩, rfl⟩
    · rw [if_neg hlen, if_neg hlen]
      exact ⟨rfl, rfl, ⟨_, rfl, rfl, rfl, rfl, htotal⟩, rfl⟩
  · rw [if_neg hstudio]
    by_cases hlen : (euroLookahead 3 rest).1.length = 3
    · rw [if_pos hlen, if_pos hlen]
      exact ⟨rfl, rfl, ⟨_, rfl, rfl, rfl, rfl, rfl⟩, rfl⟩
    · rw [if_neg hlen, if_neg hlen]
      exact ⟨rfl, rfl, ⟨_, rfl, rfl, rfl, rfl, htotal⟩, rfl⟩

/-- Claim C6, witness at a concrete input: a bare triple line "1/2/0"
with three following currency lines, all consumed, the third supplying
the total. -/
theorem c6_witness :
    (stepCore (some ("01.01.2025"))
        (some { date := "01.01.2025", time := "10:00", event := "Ev", studio := "",
                B := none, A := none, N := none, total := none })
        ("1/2/0") ["5,00 €", "1,00 €", "6,00 €"]).1 = some ("01.01.2025") ∧
    (stepCore (some ("01.01.2025"))
        (some { date := "01.01.2025", time := "10:00", event := "Ev", studio := "",
                B := none, A := none, N := none, total := none })
        ("1/2/0") ["5,00 €", "1,00 €", "6,00 €"]).2.1 = none ∧
    (∃ rec, (stepCore (some ("01.01.2025"))
        (some { date := "01.01.2025", time := "10:00", event := "Ev", studio := "",
                B := none, A := none, N := none, total := none })
        ("1/2/0") ["5,00 €", "1,00 €", "6,00 €"]).2.2.1 = [rec] ∧
      rec.B = some (charsToNat ['1']) ∧ rec.A = some (charsToNat ['2']) ∧
      rec.N = some (charsToNat ['0']) ∧
      rec.total = (if (euroLookahead 3 ["5,00 €", "1,00 €", "6,00 €"]).1.length = 3
        then some (String.mk
          ((euroLookahead 3 ["5,00 €", "1,00 €", "6,00 €"]).1.getD 2 []))
        else none)) ∧
    (stepCore (some ("01.01.2025"))
        (some { date := "01.01.2025", time := "10:00", event := "Ev", studio := "",
                B := none, A := none, N := none, total := none })
        ("1/2/0") ["5,00 €", "1,00 €", "6,00 €"]).2.2.2 =
      (euroLookahead 3 ["5,00 €", "1,00 €", "6,00 €"]).2 :=
  c6_total_lookahead_commit (some ("01.01.2025"))
    { date := "01.01.2025", time := "10:00", event := "Ev", studio := "",
      B := none, A := none, N := none, total := none }
    ("1/2/0") ["5,00 €", "1,00 €", "6,00 €"] 0 ['1'] ['2'] ['0']
    (by decide) (by decide) (by decide) (by decide) (by decide) (by decide)
    (by decide) rfl (by decide) (by decide)
